import Mathlib

/-!
Verification development for the m4a-to-notes asynchronous transcription
pipeline.  The definitions below are a shallow embedding of the TypeScript
sources: the `transcriptions` table schema (`src/db/schema.ts`), the
`TranscriptionsService` record-store helpers (`src/services/transcriptions.ts`),
the `TranscriptionOrchestrator` (`src/services/transcriptionOrchestrator.ts`),
the `StorageService.downloadContent` retry loop (`src/services/storage.ts`) and
the `handleQueueMessage` batch handler (`src/services/queueConsumer.ts`).
JavaScript strings are modelled as `List Char`; machine timestamps as `Nat`;
every fallible external call (blob storage, database write, queue send, the
speech-to-text capability) is driven by an explicit environment/oracle so that
a run of the orchestrator is a pure function of the oracle and the stored
record.
-/

namespace M4A

/-- JavaScript strings, modelled as lists of characters. -/
abbrev Str := List Char

/-- JS `String.prototype.includes(sub)`: `sub` occurs contiguously in `s`. -/
def jsIncludes (s sub : Str) : Bool :=
  if sub.isPrefixOf s then true
  else
    match s with
    | [] => false
    | _ :: t => jsIncludes t sub

/-- JS `String.prototype.trim()`: strip whitespace from both ends. -/
def jsTrim (s : Str) : Str :=
  ((s.dropWhile Char.isWhitespace).reverse.dropWhile Char.isWhitespace).reverse

/-- JS `String.prototype.substring(start, finish)`: both indices are clamped
to `[0, length]` and swapped if out of order. -/
def jsSubstring (s : Str) (start finish : Nat) : Str :=
  let a := min start s.length
  let b := min finish s.length
  (s.take (max a b)).drop (min a b)

/-- Status enum of the `transcriptions` table
(`enum: ['pending', 'processing', 'completed', 'failed']`). -/
inductive TranscriptionStatus where
  | pending
  | processing
  | completed
  | failed
deriving DecidableEq, Repr

/-- Source enum of the `transcriptions` table (`enum: ['web', 'telegram']`). -/
inductive TranscriptionSource where
  | web
  | telegram
deriving DecidableEq, Repr

/-- The JSON `error_details` column: `{code, message}`. -/
structure ErrorDetail where
  code : Str
  message : Str
deriving DecidableEq, Repr

/-- A row of the `transcriptions` table (schema.ts).  Nullable columns are
`Option`; `created_at`/`updated_at` carry a `Nat` clock value. -/
structure Transcription where
  id : String
  status : TranscriptionStatus
  progress : Nat
  audioKey : String
  filename : String
  source : TranscriptionSource
  transcriptText : Option Str := none
  preview : Option Str := none
  userMetadata : List (String × String) := []
  errorDetails : Option ErrorDetail := none
  createdAt : Nat := 0
  startedAt : Option Nat := none
  completedAt : Option Nat := none
  updatedAt : Nat := 0
deriving DecidableEq, Repr

/-- A status is terminal when it is `completed` or `failed`. -/
def TranscriptionStatus.isTerminal : TranscriptionStatus → Bool
  | .completed => true
  | .failed => true
  | _ => false

/-! ### TranscriptionsService record transformers

`TranscriptionsService.update` loads the row (throwing NotFound when absent)
and then applies a drizzle partial `set`, which touches exactly the listed
columns plus the `$onUpdate` timestamp `updated_at`.  Each convenience helper
below is the record-level effect of the corresponding partial update. -/

/-- `markStarted`: `{status: PROCESSING, progress, startedAt: now}`. -/
def markStartedRec (r : Transcription) (progress : Nat) (now : Nat) : Transcription :=
  { r with status := .processing, progress := progress,
           startedAt := some now, updatedAt := now }

/-- `updateProgress`: `{progress}`. -/
def updateProgressRec (r : Transcription) (p : Nat) (now : Nat) : Transcription :=
  { r with progress := p, updatedAt := now }

/-- `markCompleted`: `{status: COMPLETED, progress: 100, preview,
transcriptText, completedAt: now}`. -/
def markCompletedRec (r : Transcription) (preview : Option Str) (text : Str)
    (now : Nat) : Transcription :=
  { r with status := .completed, progress := 100, preview := preview,
           transcriptText := some text, completedAt := some now, updatedAt := now }

/-- `markFailed`: `{status: FAILED, errorDetails: {code, message},
completedAt: now}`. -/
def markFailedRec (r : Transcription) (code msg : Str) (now : Nat) : Transcription :=
  { r with status := .failed, errorDetails := some ⟨code, msg⟩,
           completedAt := some now, updatedAt := now }

/-- `TranscriptionsService.create`: fresh row with
`status: PENDING, progress: 0` and all output/error columns null. -/
def createRec (id : String) (audioKey filename : String)
    (source : TranscriptionSource) (meta : List (String × String))
    (now : Nat) : Transcription :=
  { id := id, status := .pending, progress := 0, audioKey := audioKey,
    filename := filename, source := source, userMetadata := meta,
    createdAt := now, updatedAt := now }

/-- Store-level `markFailed` on the single row for one id:
`update` throws NotFound when the row is absent, otherwise applies the
partial update and returns the updated row. -/
def markFailedStore (st : Option Transcription) (code msg : Str) (now : Nat) :
    Except String Transcription :=
  match st with
  | none => .error "Transcription not found"
  | some r => .ok (markFailedRec r code msg now)

/-- One mutating `TranscriptionsService` helper call, with its arguments. -/
inductive SvcOp where
  | opStarted (progress now : Nat)
  | opProgress (p now : Nat)
  | opCompleted (preview : Option Str) (text : Str) (now : Nat)
  | opFailed (code msg : Str) (now : Nat)
deriving DecidableEq, Repr

/-- Apply one service helper to a row. -/
def applyOp (r : Transcription) : SvcOp → Transcription
  | .opStarted p now => markStartedRec r p now
  | .opProgress p now => updateProgressRec r p now
  | .opCompleted pv t now => markCompletedRec r pv t now
  | .opFailed c m now => markFailedRec r c m now

/-- Apply a sequence of service helpers to a row, left to right. -/
def runOps (r : Transcription) (ops : List SvcOp) : Transcription :=
  ops.foldl applyOp r

/-! ### TranscriptionOrchestrator

`processTranscription` and `createTranscription` from
`transcriptionOrchestrator.ts`, with every awaited external call resolved by
an oracle environment.  Each run records the sequence of external operations
attempted (`Effect`), the record-store writes that actually landed
(`WriteOp`), the final stored row and the returned/thrown outcome. -/

/-- A record-store write, as issued by the orchestrator. -/
inductive WriteOp where
  | started (progress : Nat)
  | prog (p : Nat)
  | completed (preview : Str) (text : Str)
  | failed (code msg : Str)
deriving DecidableEq, Repr

/-- An external operation attempted during a run. -/
inductive Effect where
  | storeRead
  | storeCreate (id : String)
  | storeWrite (w : WriteOp)
  | storagePut (key : String)
  | storageGet (key : String)
  | storageDelete (key : String)
  | transcribeCall
  | queueSend
deriving DecidableEq, Repr

/-- Oracle for one `processTranscription` run: the outcome of each external
call the run may make.  A `some msg` in a `...Err` field means that call
throws with message `msg`. -/
structure ProcEnv where
  downloadResult : Except Str (List Nat) := .ok []
  transcribeResult : Except Str Str := .ok []
  markStartedErr : Option Str := none
  progress20Err : Option Str := none
  progress90Err : Option Str := none
  markCompletedErr : Option Str := none
  markFailedErr : Option Str := none
  deleteErr : Option Str := none
  now : Nat := 0
deriving Repr

/-- Result of a `processTranscription` run. -/
structure ProcResult where
  record : Option Transcription
  effects : List Effect
  writes : List WriteOp
  outcome : Except Str Unit
deriving Repr

/-- Message thrown on a blank transcript: `'No speech detected in audio'`. -/
def noSpeechMsg : Str := ("No speech detected in audio").toList

/-- Error code `'NO_SPEECH_DETECTED'`. -/
def noSpeechCode : Str := ("NO_SPEECH_DETECTED").toList

/-- Error code `'OPENAI_API_ERROR'`. -/
def openAiCode : Str := ("OPENAI_API_ERROR").toList

/-- Error code `'FILE_SIZE_ERROR'`. -/
def fileSizeCode : Str := ("FILE_SIZE_ERROR").toList

/-- Default error code `'TRANSCRIPTION_ERROR'`. -/
def transcriptionErrorCode : Str := ("TRANSCRIPTION_ERROR").toList

/-- The catch-block heuristic that picks an error code from the message
(`errorMessage.includes(...)` chain). -/
def classifyError (msg : Str) : Str :=
  if jsIncludes msg ("OpenAI").toList || jsIncludes msg ("API").toList then
    openAiCode
  else if jsIncludes msg ("No speech detected").toList then
    noSpeechCode
  else if jsIncludes msg ("File size").toList || jsIncludes msg ("too large").toList then
    fileSizeCode
  else
    transcriptionErrorCode

/-- Preview computation at completion:
`transcriptText.substring(0, 150) + (transcriptText.length > 150 ? '...' : '')`. -/
def makePreview (t : Str) : Str :=
  jsSubstring t 0 150 ++ (if 150 < t.length then ("...").toList else [])

/-- The orchestrator's catch block: classify the message, attempt
`markFailed` (its own failure is caught as `dbError`, in which case the
audio-cleanup delete is skipped), then re-throw the original error.
`tr` is the row as fetched (for `audioKey`), `cur` the row as currently
stored, `effs`/`ws` the effects and writes accumulated so far. -/
def catchBlock (env : ProcEnv) (tr cur : Transcription)
    (effs : List Effect) (ws : List WriteOp) (errMsg : Str) : ProcResult :=
  let code := classifyError errMsg
  match env.markFailedErr with
  | some _ =>
      -- `markFailed` threw: caught as dbError and only logged; the delete
      -- inside the same try is never reached; the original error propagates.
      ⟨some cur, effs ++ [.storeWrite (.failed code errMsg)], ws, .error errMsg⟩
  | none =>
      let cur2 := markFailedRec cur code errMsg env.now
      let effs2 := effs ++ [Effect.storeWrite (.failed code errMsg)]
      let ws2 := ws ++ [WriteOp.failed code errMsg]
      -- `if (transcription.audioKey)`: best-effort delete, failures logged only.
      if tr.audioKey ≠ "" then
        ⟨some cur2, effs2 ++ [Effect.storageDelete tr.audioKey], ws2, .error errMsg⟩
      else
        ⟨some cur2, effs2, ws2, .error errMsg⟩

/-- The try block of `processTranscription` (steps after the idempotency
guard), together with its catch block. -/
def processBody (env : ProcEnv) (tr : Transcription) : ProcResult :=
  match env.markStartedErr with
  | some e => catchBlock env tr tr [.storeWrite (.started 5)] [] e
  | none =>
  let r1 := markStartedRec tr 5 env.now
  let effs1 : List Effect := [.storeWrite (.started 5)]
  let ws1 : List WriteOp := [.started 5]
  match env.downloadResult with
  | .error e => catchBlock env tr r1 (effs1 ++ [.storageGet tr.audioKey]) ws1 e
  | .ok _bytes =>
  let effs2 := effs1 ++ [Effect.storageGet tr.audioKey]
  match env.progress20Err with
  | some e => catchBlock env tr r1 (effs2 ++ [.storeWrite (.prog 20)]) ws1 e
  | none =>
  let r2 := updateProgressRec r1 20 env.now
  let effs3 := effs2 ++ [Effect.storeWrite (.prog 20)]
  let ws2 := ws1 ++ [WriteOp.prog 20]
  match env.transcribeResult with
  | .error e => catchBlock env tr r2 (effs3 ++ [.transcribeCall]) ws2 e
  | .ok text =>
  let effs4 := effs3 ++ [Effect.transcribeCall]
  if jsTrim text = [] then
    -- `if (!transcriptText.trim()) throw new Error('No speech detected in audio')`
    catchBlock env tr r2 effs4 ws2 noSpeechMsg
  else
  match env.progress90Err with
  | some e => catchBlock env tr r2 (effs4 ++ [.storeWrite (.prog 90)]) ws2 e
  | none =>
  let r3 := updateProgressRec r2 90 env.now
  let effs5 := effs4 ++ [Effect.storeWrite (.prog 90)]
  let ws3 := ws2 ++ [WriteOp.prog 90]
  let preview := makePreview text
  match env.markCompletedErr with
  | some e =>
      catchBlock env tr r3 (effs5 ++ [.storeWrite (.completed preview text)]) ws3 e
  | none =>
  let r4 := markCompletedRec r3 (some preview) text env.now
  let effs6 := effs5 ++ [Effect.storeWrite (.completed preview text)]
  let ws4 := ws3 ++ [WriteOp.completed preview text]
  -- Cleanup delete sits in its own try/catch: failure is logged, never thrown.
  ⟨some r4, effs6 ++ [Effect.storageDelete tr.audioKey], ws4, .ok ()⟩

/-- `TranscriptionOrchestrator.processTranscription(id)` on the stored row for
that id: fetch, idempotency guard, then the processing body. -/
def processTranscription (env : ProcEnv) (st : Option Transcription) : ProcResult :=
  match st with
  | none => ⟨none, [.storeRead], [], .error ("Transcription not found").toList⟩
  | some tr =>
    match tr.status with
    | .completed => ⟨some tr, [.storeRead], [], .ok ()⟩
    | .failed => ⟨some tr, [.storeRead], [], .ok ()⟩
    | .processing =>
        let r := processBody env tr
        ⟨r.record, .storeRead :: r.effects, r.writes, r.outcome⟩
    | .pending =>
        let r := processBody env tr
        ⟨r.record, .storeRead :: r.effects, r.writes, r.outcome⟩

/-- A sequence of `processTranscription` invocations on the same id (duplicate
queue deliveries), threading the stored row and concatenating the effect and
write traces. -/
def processMany (envs : List ProcEnv) (st : Option Transcription) :
    Option Transcription × List Effect × List WriteOp :=
  match envs with
  | [] => (st, [], [])
  | e :: rest =>
    let r := processTranscription e st
    let out := processMany rest r.record
    (out.1, r.effects ++ out.2.1, r.writes ++ out.2.2)

/-- The progress value stored by a write, if it stores one. -/
def writeProgress : WriteOp → Option Nat
  | .started p => some p
  | .prog p => some p
  | .completed _ _ => some 100
  | .failed _ _ => none

/-- The sequence of stored progress values for a row: its progress before the
run, then each value written. -/
def progressSeq (r : Transcription) (ws : List WriteOp) : List Nat :=
  r.progress :: ws.filterMap writeProgress

/-! ### createTranscription -/

/-- `25 * 1024 * 1024`, the orchestrator's file-size business rule. -/
def maxFileSize : Nat := 25 * 1024 * 1024

/-- Error code `'QUEUE_ERROR'`. -/
def queueErrCode : Str := ("QUEUE_ERROR").toList

/-- Message `'Failed to enqueue transcription for processing'` persisted to
the record on enqueue failure. -/
def queueErrMsg : Str := ("Failed to enqueue transcription for processing").toList

/-- Message of the `Error` thrown to the creation caller after an enqueue
failure: `'Failed to enqueue transcription'`. -/
def enqueueThrownMsg : Str := ("Failed to enqueue transcription").toList

/-- Oracle for one `createTranscription` run. -/
structure CreateEnv where
  audioSize : Nat
  filename : String
  uuid : String
  recordId : String
  uploadErr : Option Str := none
  createErr : Option Str := none
  hasQueue : Bool := true
  queueSendErr : Option Str := none
  markFailedErr : Option Str := none
  now : Nat := 0
deriving Repr

/-- Result of a `createTranscription` run: the stored row for the created id,
the external operations attempted, and the returned id or thrown error.
(The `estimatedDuration` heuristic returned alongside the id is a float
computation with no bearing on the claims and is not modelled.) -/
structure CreateResult where
  record : Option Transcription
  effects : List Effect
  outcome : Except Str String
deriving Repr

/-- `TranscriptionOrchestrator.createTranscription`: validate size, upload the
audio, insert the pending row, then enqueue; an enqueue failure marks the row
failed (`QUEUE_ERROR`) and throws `'Failed to enqueue transcription'`. -/
def createTranscription (env : CreateEnv) (source : TranscriptionSource)
    (meta : List (String × String)) : CreateResult :=
  if maxFileSize < env.audioSize then
    ⟨none, [], .error (("File size exceeds maximum").toList)⟩
  else
    let audioKey := "audio/" ++ env.uuid ++ "-" ++ env.filename
    match env.uploadErr with
    | some e => ⟨none, [.storagePut audioKey], .error e⟩
    | none =>
    match env.createErr with
    | some e => ⟨none, [.storagePut audioKey, .storeCreate env.recordId], .error e⟩
    | none =>
    let r0 := createRec env.recordId audioKey env.filename source meta env.now
    let effs : List Effect := [.storagePut audioKey, .storeCreate env.recordId]
    if env.hasQueue then
      match env.queueSendErr with
      | none => ⟨some r0, effs ++ [Effect.queueSend], .ok env.recordId⟩
      | some _qe =>
        match env.markFailedErr with
        | some dbe =>
            -- `markFailed` itself threw: that exception propagates unhandled
            -- and the row keeps its pending status.
            ⟨some r0,
             effs ++ [Effect.queueSend, Effect.storeWrite (.failed queueErrCode queueErrMsg)],
             .error dbe⟩
        | none =>
            let r1 := markFailedRec r0 queueErrCode queueErrMsg env.now
            ⟨some r1,
             effs ++ [Effect.queueSend, Effect.storeWrite (.failed queueErrCode queueErrMsg)],
             .error enqueueThrownMsg⟩
    else
      -- Queue binding absent: warn and return with the row still pending.
      ⟨some r0, effs, .ok env.recordId⟩

/-! ### StorageService.downloadContent -/

/-- The retry delays of `downloadContent`: `[150, 400, 900]` milliseconds. -/
def delaysMs : List Nat := [150, 400, 900]

/-- Oracle for one `downloadContent` run: what the k-th bucket-binding `get`
returns, whether S3 fallback credentials are configured, and what the fallback
fetch returns (`none` = not ok). -/
structure DownloadEnv where
  getResult : Nat → Option (List Nat)
  hasFallback : Bool := false
  fallbackResult : Option (List Nat) := none

/-- Result of a `downloadContent` run: outcome, number of bucket-binding `get`
calls made, total milliseconds slept, and whether the S3 fallback was tried. -/
structure DownloadResult where
  outcome : Except String (List Nat)
  getCalls : Nat
  sleptMs : Nat
  fallbackTried : Bool
deriving Repr

/-- The `for (attempt = 0; attempt < maxAttempts; attempt++)` loop of
`downloadContent`, structured on the remaining attempt budget: returns the
number of `get` calls made, the milliseconds slept, and the content found. -/
def bucketLoop (env : DownloadEnv) : Nat → Nat → Nat × Nat × Option (List Nat)
  | 0, _ => (0, 0, none)
  | fuel + 1, attempt =>
    match env.getResult attempt with
    | some b => (1, 0, some b)
    | none =>
      let sleep := if attempt < delaysMs.length then delaysMs.getD attempt 0 else 0
      let rest := bucketLoop env fuel (attempt + 1)
      (rest.1 + 1, sleep + rest.2.1, rest.2.2)

/-- `StorageService.downloadContent`: up to `maxAttempts = 3` bucket-binding
reads with backoff, then the optional direct-S3 fallback, then
`'Object not found'`. -/
def downloadContent (env : DownloadEnv) : DownloadResult :=
  let loop := bucketLoop env 3 0
  match loop.2.2 with
  | some b => ⟨.ok b, loop.1, loop.2.1, false⟩
  | none =>
    if env.hasFallback then
      match env.fallbackResult with
      | some b => ⟨.ok b, loop.1, loop.2.1, true⟩
      | none => ⟨.error "Object not found", loop.1, loop.2.1, true⟩
    else
      ⟨.error "Object not found", loop.1, loop.2.1, false⟩

/-! ### handleQueueMessage -/

/-- The batch loop of `handleQueueMessage`: messages are processed in index
order by `processTranscriptionEvent` (modelled as an oracle from the message
index to its outcome); the first failure is logged and re-thrown, ending the
loop.  Returns the indices on which the handler was invoked, in invocation
order, and the overall outcome. -/
def runBatch (proc : Nat → Except Str Unit) : Nat → Nat → List Nat × Except Str Unit
  | 0, _ => ([], .ok ())
  | n + 1, i =>
    match proc i with
    | .error e => ([i], .error e)
    | .ok _ =>
      let rest := runBatch proc n (i + 1)
      (i :: rest.1, rest.2)

/-- `handleQueueMessage` over a batch of `n` messages. -/
def handleQueueMessage (proc : Nat → Except Str Unit) (n : Nat) :
    List Nat × Except Str Unit :=
  runBatch proc n 0

/-! ### Predicates used by the claims -/

/-- A list of Nat is monotonically non-decreasing. -/
def nonDecreasing : List Nat → Bool
  | a :: b :: t => Nat.ble a b && nonDecreasing (b :: t)
  | _ => true

/-- The service helpers that move a row to a terminal status. -/
def SvcOp.isTerminalOp : SvcOp → Bool
  | .opCompleted .. => true
  | .opFailed .. => true
  | _ => false

/-- No service helper is invoked on a row after a terminal marking. -/
def noOpAfterTerminal : List SvcOp → Bool
  | [] => true
  | op :: rest => (!op.isTerminalOp || rest.isEmpty) && noOpAfterTerminal rest

/-- The spec's output/error column invariant:
`transcriptText` null iff status is not completed, and
`errorDetails` null iff status is not failed. -/
def textErrorInv (r : Transcription) : Prop :=
  (r.transcriptText = none ↔ r.status ≠ .completed) ∧
  (r.errorDetails = none ↔ r.status ≠ .failed)

/-! ### Concrete runs used as counterexamples and witnesses -/

/-- A freshly created pending row. -/
def c2CexRec : Transcription :=
  { id := "t1", status := .pending, progress := 0, audioKey := "audio/u-f.m4a",
    filename := "f.m4a", source := .web }

/-- A run whose transcription call throws and whose failure write also
throws: the row is left in `processing` with progress 20. -/
def c2CexCrashEnv : ProcEnv :=
  { transcribeResult := .error (("network glitch").toList),
    markFailedErr := some (("db down").toList) }

/-- A fully successful run. -/
def c2CexOkEnv : ProcEnv :=
  { transcribeResult := .ok (("hello world").toList) }

/-- A pending row used to witness the amended monotonicity statement. -/
def c2WitRec : Transcription :=
  { id := "t2", status := .pending, progress := 0, audioKey := "audio/u-g.m4a",
    filename := "g.m4a", source := .telegram }

/-- A base row for the service-helper sequences of claim C3. -/
def c3BaseRec : Transcription := createRec "t3" "audio/u-h.m4a" "h.m4a" .web [] 0

/-- `markCompleted` followed by `markFailed`: the terminal override sequence. -/
def c3CexOps : List SvcOp :=
  [.opCompleted (some (("p").toList)) (("hello").toList) 1,
   .opFailed (("C").toList) (("m").toList) 2]

/-- A normal successful lifecycle sequence. -/
def c3WitOps : List SvcOp :=
  [.opStarted 5 1, .opProgress 20 2, .opProgress 90 3,
   .opCompleted (some (("hello").toList)) (("hello").toList) 4]

/-- A pending row for the blank-transcript runs of claim C4. -/
def c4Rec : Transcription :=
  { id := "t4", status := .pending, progress := 0, audioKey := "audio/u-i.m4a",
    filename := "i.m4a", source := .web }

/-- Blank transcript and a failing failure-write: the double fault. -/
def c4CexEnv : ProcEnv :=
  { transcribeResult := .ok (("   ").toList),
    markFailedErr := some (("db down").toList) }

/-- Blank transcript with a working record store. -/
def c4WitEnv : ProcEnv := { transcribeResult := .ok (("  \t ").toList) }

/-- A pending row for the failing runs of claim C5. -/
def c5Rec : Transcription :=
  { id := "t5", status := .pending, progress := 0, audioKey := "audio/u-j.m4a",
    filename := "j.m4a", source := .web }

/-- Audio download throws and the failure write also throws. -/
def c5CexEnv : ProcEnv :=
  { downloadResult := .error (("storage unavailable").toList),
    markFailedErr := some (("db down").toList) }

/-- Audio download throws; the record store works. -/
def c5WitEnv : ProcEnv :=
  { downloadResult := .error (("storage unavailable").toList) }

/-- Enqueue fails and the synchronous failure write also fails. -/
def c6CexEnv : CreateEnv :=
  { audioSize := 1024, filename := "k.m4a", uuid := "u6", recordId := "t6",
    queueSendErr := some (("queue down").toList),
    markFailedErr := some (("db down").toList) }

/-- Enqueue fails; the record store works. -/
def c6WitEnv : CreateEnv :=
  { audioSize := 1024, filename := "k.m4a", uuid := "u6", recordId := "t6",
    queueSendErr := some (("queue down").toList) }

/-- A completed row used to witness the idempotency guard. -/
def c1WitRec : Transcription :=
  { id := "t0", status := .completed, progress := 100, audioKey := "audio/u-a.m4a",
    filename := "a.m4a", source := .web,
    transcriptText := some (("hello").toList), preview := some (("hello").toList) }

/-- Two duplicate deliveries with fully successful oracles. -/
def c1WitEnvs : List ProcEnv :=
  [{ transcribeResult := .ok (("x").toList) }, { transcribeResult := .ok (("y").toList) }]

/-- A bucket in which the object appears on the second binding read. -/
def c8WitEnv : DownloadEnv :=
  { getResult := fun k => if k = 1 then some [7, 7] else none }

/-- A batch oracle in which message 2 fails and every earlier one succeeds. -/
def c9WitProc : Nat → Except Str Unit :=
  fun i => if i = 2 then .error (("boom").toList) else .ok ()

/-! ## Helper lemmas -/

/-- The idempotency guard: on a terminal row, one invocation performs only the
initial fetch and succeeds, leaving the row untouched. -/
theorem terminal_step (env : ProcEnv) (r : Transcription)
    (h : r.status = .completed ∨ r.status = .failed) :
    processTranscription env (some r) = ⟨some r, [.storeRead], [], .ok ()⟩ := by
  rcases h with h | h <;> simp [processTranscription, h]

/-- Iterated deliveries on a terminal row: every invocation is a pure fetch. -/
theorem processMany_terminal (envs : List ProcEnv) (r : Transcription)
    (h : r.status = .completed ∨ r.status = .failed) :
    processMany envs (some r) =
      (some r, List.replicate envs.length Effect.storeRead, []) := by
  induction envs with
  | nil => simp [processMany]
  | cons e rest ih =>
      simp [processMany, terminal_step e r h, ih, List.replicate_succ]

/-- On a pending row, `processTranscription` runs the processing body. -/
theorem pending_step (env : ProcEnv) (r : Transcription) (hs : r.status = .pending) :
    processTranscription env (some r) =
      ⟨(processBody env r).record, .storeRead :: (processBody env r).effects,
       (processBody env r).writes, (processBody env r).outcome⟩ := by
  simp [processTranscription, hs]

/-- On a row already processing, `processTranscription` runs the processing
body as well (the possible-retry path). -/
theorem processing_step (env : ProcEnv) (r : Transcription)
    (hs : r.status = .processing) :
    processTranscription env (some r) =
      ⟨(processBody env r).record, .storeRead :: (processBody env r).effects,
       (processBody env r).writes, (processBody env r).outcome⟩ := by
  simp [processTranscription, hs]

/-- The catch block never lands a progress-bearing write. -/
theorem filterMap_writes_catchBlock (env : ProcEnv) (tr cur : Transcription)
    (effs : List Effect) (ws : List WriteOp) (errMsg : Str) :
    (catchBlock env tr cur effs ws errMsg).writes.filterMap writeProgress =
      ws.filterMap writeProgress := by
  unfold catchBlock
  cases env.markFailedErr <;> split_ifs <;> simp [writeProgress]

/-- Whatever the oracle does, the progress values written by one processing
body form one of the five prefixes of `[5, 20, 90, 100]`. -/
theorem processBody_writes_cases (env : ProcEnv) (tr : Transcription) :
    (processBody env tr).writes.filterMap writeProgress ∈
      ([[], [5], [5, 20], [5, 20, 90], [5, 20, 90, 100]] : List (List Nat)) := by
  unfold processBody
  cases hms : env.markStartedErr with
  | some e => simp [filterMap_writes_catchBlock]
  | none =>
  cases hdl : env.downloadResult with
  | error e => simp [filterMap_writes_catchBlock, writeProgress]
  | ok bs =>
  cases hp20 : env.progress20Err with
  | some e => simp [filterMap_writes_catchBlock, writeProgress]
  | none =>
  cases htr : env.transcribeResult with
  | error e => simp [filterMap_writes_catchBlock, writeProgress]
  | ok text =>
  by_cases hb : jsTrim text = []
  · simp [hb, filterMap_writes_catchBlock, writeProgress]
  · simp only [hb, if_neg]
    cases hp90 : env.progress90Err with
    | some e => simp [filterMap_writes_catchBlock, writeProgress]
    | none =>
    cases hmc : env.markCompletedErr with
    | some e => simp [filterMap_writes_catchBlock, writeProgress]
    | none => simp [writeProgress]

/-- When the failure write works, the catch block stores the classified
failure and re-throws the original message. -/
theorem catchBlock_persists (env : ProcEnv) (tr cur : Transcription)
    (effs : List Effect) (ws : List WriteOp) (errMsg : Str)
    (hmf : env.markFailedErr = none) :
    (catchBlock env tr cur effs ws errMsg).record =
      some (markFailedRec cur (classifyError errMsg) errMsg env.now) ∧
    (catchBlock env tr cur effs ws errMsg).outcome = .error errMsg ∧
    Effect.storeWrite (.failed (classifyError errMsg) errMsg) ∈
      (catchBlock env tr cur effs ws errMsg).effects := by
  unfold catchBlock
  rw [hmf]
  split_ifs <;> simp

/-- A processing body either succeeds or ends in its catch block. -/
theorem processBody_shape (env : ProcEnv) (tr : Transcription) :
    (processBody env tr).outcome = .ok () ∨
    ∃ cur effs ws errMsg, processBody env tr = catchBlock env tr cur effs ws errMsg := by
  unfold processBody
  cases hms : env.markStartedErr with
  | some e1 => exact Or.inr ⟨_, _, _, _, rfl⟩
  | none =>
  cases hdl : env.downloadResult with
  | error e1 => exact Or.inr ⟨_, _, _, _, rfl⟩
  | ok bs =>
  cases hp20 : env.progress20Err with
  | some e1 => exact Or.inr ⟨_, _, _, _, rfl⟩
  | none =>
  cases htr : env.transcribeResult with
  | error e1 => exact Or.inr ⟨_, _, _, _, rfl⟩
  | ok text =>
  by_cases hb : jsTrim text = []
  · simp only [if_pos hb]
    exact Or.inr ⟨_, _, _, _, rfl⟩
  · simp only [if_neg hb]
    cases hp90 : env.progress90Err with
    | some e1 => exact Or.inr ⟨_, _, _, _, rfl⟩
    | none =>
    cases hmc : env.markCompletedErr with
    | some e1 => exact Or.inr ⟨_, _, _, _, rfl⟩
    | none => exact Or.inl rfl

/-- Whenever a processing body throws and the failure write works, the thrown
message and its classified code have been written to the row, whose status is
then failed. -/
theorem processBody_error_persists (env : ProcEnv) (tr : Transcription)
    (hmf : env.markFailedErr = none) {e : Str}
    (he : (processBody env tr).outcome = .error e) :
    ∃ r', (processBody env tr).record = some r' ∧
      r'.status = .failed ∧ r'.errorDetails = some ⟨classifyError e, e⟩ ∧
      Effect.storeWrite (.failed (classifyError e) e) ∈ (processBody env tr).effects := by
  rcases processBody_shape env tr with hok | ⟨cur, effs, ws, errMsg, hcb⟩
  · rw [hok] at he; exact absurd he (by simp)
  · rw [hcb] at he ⊢
    obtain ⟨hrec, hout, hmem⟩ := catchBlock_persists env tr cur effs ws errMsg hmf
    rw [hout] at he
    injection he with he'
    subst he'
    exact ⟨_, hrec, by simp [markFailedRec], by simp [markFailedRec], hmem⟩

/-! ## Claim theorems -/

/-- Claim C1: for every transcription record whose status is completed or
failed, invoking `processTranscription` returns immediately without any
record-store update, object-storage read or delete, or call to the external
transcription capability, no matter how many times it is re-invoked: an
arbitrary sequence of invocations leaves the row unchanged and its combined
effect trace is one store fetch per invocation, with no writes. -/
theorem c1_terminal_idempotent (envs : List ProcEnv) (r : Transcription)
    (h : r.status = .completed ∨ r.status = .failed) :
    processMany envs (some r) =
      (some r, List.replicate envs.length Effect.storeRead, []) :=
  processMany_terminal envs r h

/-- Witness for C1 at a concrete completed row and two duplicate
deliveries. -/
theorem c1_terminal_idempotent_witness :
    processMany c1WitEnvs (some c1WitRec) =
      (some c1WitRec, List.replicate c1WitEnvs.length Effect.storeRead, []) :=
  c1_terminal_idempotent c1WitEnvs c1WitRec (Or.inl rfl)

/-- Claim C2 counterexample: a run whose transcription call throws and whose
failure write also throws leaves the row in status processing with progress
20; re-invoking `processTranscription` on that row first writes progress 5,
so the full stored progress sequence 0, 5, 20, 5, 20, 90, 100 is not
monotonically non-decreasing even though every update happened while the
status was not terminal. -/
theorem c2_counterexample :
    ((processTranscription c2CexCrashEnv (some c2CexRec)).record.map
        (fun r => (r.status, r.progress)) = some (.processing, 20)) ∧
    nonDecreasing (progressSeq c2CexRec
      (processMany [c2CexCrashEnv, c2CexOkEnv] (some c2CexRec)).2.2) = false := by
  decide

/-- Claim C2 as amended: within any single invocation of
`processTranscription` on a pending row (whose progress is at most the
initial markStarted value 5), the stored progress sequence is monotonically
non-decreasing; the monotonicity claim fails only across a re-invocation on
a row already in status processing, which resets progress to 5. -/
theorem c2_progress_monotone_single_run (env : ProcEnv) (r : Transcription)
    (hs : r.status = .pending) (hp : r.progress ≤ 5) :
    nonDecreasing (progressSeq r (processTranscription env (some r)).writes) = true := by
  rw [pending_step env r hs]
  have h := processBody_writes_cases env r
  simp only [List.mem_cons, List.mem_singleton, List.not_mem_nil, or_false] at h
  unfold progressSeq
  rcases h with h | h | h | h | h <;>
    simp only [h, nonDecreasing, Bool.and_eq_true, Nat.ble_eq] <;> simp_all

/-- Witness for the amended C2 at a concrete pending row and a fully
successful oracle. -/
theorem c2_witness :
    nonDecreasing (progressSeq c2WitRec
      (processTranscription c2CexOkEnv (some c2WitRec)).writes) = true :=
  c2_progress_monotone_single_run c2CexOkEnv c2WitRec rfl (by decide)

/-- Claim C5 counterexample: when the audio download throws and the
`markFailed` write itself also throws, `processTranscription` propagates the
original exception while the row is still in status processing with no
`errorDetails` persisted. -/
theorem c5_counterexample :
    (processTranscription c5CexEnv (some c5Rec)).outcome =
        .error (("storage unavailable").toList) ∧
    (processTranscription c5CexEnv (some c5Rec)).record.map Transcription.status =
        some .processing ∧
    (processTranscription c5CexEnv (some c5Rec)).record.map Transcription.errorDetails =
        some none :=
  ⟨rfl, by decide, by decide⟩

/-- Claim C5 as amended: whenever `processTranscription` propagates an
exception for a row that was not already terminal and the failure-persisting
`markFailed` write itself succeeds, the row has been marked failed with the
classified code and the thrown message persisted in `errorDetails`, and the
failure write appears in the run's effect trace before the exception reaches
the caller. -/
theorem c5_error_persisted (env : ProcEnv) (r : Transcription)
    (hs : r.status = .pending ∨ r.status = .processing)
    (hmf : env.markFailedErr = none) {e : Str}
    (he : (processTranscription env (some r)).outcome = .error e) :
    ∃ r', (processTranscription env (some r)).record = some r' ∧
      r'.status = .failed ∧ r'.errorDetails = some ⟨classifyError e, e⟩ ∧
      Effect.storeWrite (.failed (classifyError e) e) ∈
        (processTranscription env (some r)).effects := by
  rcases hs with hs | hs
  · rw [pending_step env r hs] at he ⊢
    obtain ⟨r', h1, h2, h3, h4⟩ := processBody_error_persists env r hmf he
    exact ⟨r', h1, h2, h3, List.mem_cons_of_mem _ h4⟩
  · rw [processing_step env r hs] at he ⊢
    obtain ⟨r', h1, h2, h3, h4⟩ := processBody_error_persists env r hmf he
    exact ⟨r', h1, h2, h3, List.mem_cons_of_mem _ h4⟩

/-- Witness for the amended C5 at a concrete pending row whose audio
download throws. -/
theorem c5_witness :
    ∃ r', (processTranscription c5WitEnv (some c5Rec)).record = some r' ∧
      r'.status = .failed ∧
      r'.errorDetails = some ⟨classifyError (("storage unavailable").toList),
        ("storage unavailable").toList⟩ ∧
      Effect.storeWrite (.failed (classifyError (("storage unavailable").toList))
          (("storage unavailable").toList)) ∈
        (processTranscription c5WitEnv (some c5Rec)).effects :=
  c5_error_persisted c5WitEnv c5Rec (Or.inl rfl) rfl rfl

theorem runOps_inv (ops : List SvcOp) : ∀ r : Transcription,
    r.status ≠ .completed → r.status ≠ .failed →
    r.transcriptText = none → r.errorDetails = none →
    noOpAfterTerminal ops = true → textErrorInv (runOps r ops) := by
  induction ops with
  | nil =>
      intro r h1 h2 h3 h4 _
      exact ⟨by simp [runOps, h3, h1], by simp [runOps, h4, h2]⟩
  | cons op rest ih =>
      intro r h1 h2 h3 h4 hw
      simp only [noOpAfterTerminal, Bool.and_eq_true, Bool.or_eq_true,
        Bool.not_eq_true'] at hw
      obtain ⟨hterm, hrest⟩ := hw
      have hstep : runOps r (op :: rest) = runOps (applyOp r op) rest := by
        simp [runOps]
      rw [hstep]
      cases op with
      | opStarted p now =>
          exact ih _ (by simp [applyOp, markStartedRec]) (by simp [applyOp, markStartedRec])
            (by simp [applyOp, markStartedRec, h3]) (by simp [applyOp, markStartedRec, h4]) hrest
      | opProgress p now =>
          exact ih _ (by simp [applyOp, updateProgressRec, h1]) (by simp [applyOp, updateProgressRec, h2])
            (by simp [applyOp, updateProgressRec, h3]) (by simp [applyOp, updateProgressRec, h4]) hrest
      | opCompleted pv t now =>
          have hre : rest = [] := by
            rcases hterm with h | h
            · simp [SvcOp.isTerminalOp] at h
            · exact List.isEmpty_iff.mp h
          subst hre
          exact ⟨by simp [runOps, applyOp, markCompletedRec],
                 by simp [runOps, applyOp, markCompletedRec, h4]⟩
      | opFailed c m now =>
          have hre : rest = [] := by
            rcases hterm with h | h
            · simp [SvcOp.isTerminalOp] at h
            · exact List.isEmpty_iff.mp h
          subst hre
          exact ⟨by simp [runOps, applyOp, markFailedRec, h3],
                 by simp [runOps, applyOp, markFailedRec]⟩

/-- Claim C3 counterexample: the service-helper sequence `markCompleted`
then `markFailed` on a freshly created row yields status failed with
`transcriptText` still non-null, violating the stated biconditional. -/
theorem c3_counterexample : ¬ textErrorInv (runOps c3BaseRec c3CexOps) := by
  unfold textErrorInv
  decide

/-- Claim C3 as amended: for every record produced from `create` by a
sequence of `markStarted`, `updateProgress`, `markCompleted` and `markFailed`
in which no helper is invoked after a terminal marking, `transcriptText` is
null iff status is not completed and `errorDetails` is null iff status is
not failed.  (The unrestricted claim fails because a terminal marking does
not clear the other terminal marking's column.) -/
theorem c3_amended (id audioKey filename : String) (src : TranscriptionSource)
    (meta : List (String × String)) (now : Nat) (ops : List SvcOp)
    (hw : noOpAfterTerminal ops = true) :
    textErrorInv (runOps (createRec id audioKey filename src meta now) ops) :=
  runOps_inv ops _ (by simp [createRec]) (by simp [createRec]) rfl rfl hw

/-- Witness for the amended C3 on a concrete successful lifecycle
sequence. -/
theorem c3_witness :
    textErrorInv (runOps (createRec "t3" "audio/u-h.m4a" "h.m4a" .web [] 0) c3WitOps) :=
  c3_amended "t3" "audio/u-h.m4a" "h.m4a" .web [] 0 c3WitOps (by decide)

/-- Claim C4 counterexample: with a blank transcript and a `markFailed`
write that itself throws, the run propagates the no-speech error but the row
is left in status processing with no `NO_SPEECH_DETECTED` error recorded, so
it is not terminal and a redelivery would re-run the business logic. -/
theorem c4_counterexample :
    (processTranscription c4CexEnv (some c4Rec)).outcome = .error noSpeechMsg ∧
    (processTranscription c4CexEnv (some c4Rec)).record.map Transcription.status =
        some .processing ∧
    (processTranscription c4CexEnv (some c4Rec)).record.map Transcription.errorDetails =
        some none :=
  ⟨rfl, by decide, by decide⟩

/-- Claim C4 as amended: for every run of `processTranscription` in which
the external transcription capability returns an empty or all-whitespace
string and the failure-persisting write succeeds, the record is marked
failed with error code `NO_SPEECH_DETECTED` and message
`No speech detected in audio`, the no-speech error is re-thrown, and the
failure is terminal: any further sequence of invocations performs only store
fetches and never re-runs the pipeline. -/
theorem c4_amended (env : ProcEnv) (r : Transcription) (bs : List Nat) (t : Str)
    (hs : r.status = .pending ∨ r.status = .processing)
    (hms : env.markStartedErr = none)
    (hdl : env.downloadResult = .ok bs)
    (hp20 : env.progress20Err = none)
    (htr : env.transcribeResult = .ok t)
    (hb : jsTrim t = [])
    (hmf : env.markFailedErr = none) :
    ∃ r', (processTranscription env (some r)).record = some r' ∧
      r'.status = .failed ∧
      r'.errorDetails = some ⟨noSpeechCode, noSpeechMsg⟩ ∧
      (processTranscription env (some r)).outcome = .error noSpeechMsg ∧
      ∀ envs, processMany envs (some r') =
        (some r', List.replicate envs.length Effect.storeRead, []) := by
  have hred : processTranscription env (some r) =
      ⟨(processBody env r).record, .storeRead :: (processBody env r).effects,
       (processBody env r).writes, (processBody env r).outcome⟩ := by
    rcases hs with hs | hs
    · exact pending_step env r hs
    · exact processing_step env r hs
  have hout0 : (processBody env r).outcome = .error noSpeechMsg := by
    simp only [processBody, hms, hdl, hp20, htr, if_pos hb]
    exact (catchBlock_persists env r _ _ _ noSpeechMsg hmf).2.1
  obtain ⟨r', h1, h2, h3, _h4⟩ := processBody_error_persists env r hmf hout0
  have hcls : classifyError noSpeechMsg = noSpeechCode := by decide
  rw [hcls] at h3
  rw [hred]
  exact ⟨r', h1, h2, h3, hout0, fun envs => processMany_terminal envs r' (Or.inr h2)⟩

/-- Witness for the amended C4 at a concrete pending row and an
all-whitespace transcript. -/
theorem c4_witness :
    ∃ r', (processTranscription c4WitEnv (some c4Rec)).record = some r' ∧
      r'.status = .failed ∧
      r'.errorDetails = some ⟨noSpeechCode, noSpeechMsg⟩ ∧
      (processTranscription c4WitEnv (some c4Rec)).outcome = .error noSpeechMsg ∧
      ∀ envs, processMany envs (some r') =
        (some r', List.replicate envs.length Effect.storeRead, []) :=
  c4_amended c4WitEnv c4Rec [] (("  \t ").toList) (Or.inl rfl) rfl rfl rfl rfl
    (by decide) rfl

/-- Claim C6 counterexample: when the enqueue fails and the synchronous
`markFailed` write also fails, `createTranscription` throws but the
just-created record is left in status pending. -/
theorem c6_counterexample :
    (createTranscription c6CexEnv .web []).record.map Transcription.status =
        some .pending ∧
    (createTranscription c6CexEnv .web []).outcome = .error (("db down").toList) :=
  ⟨by decide, rfl⟩

/-- Claim C6 as amended: if the queue enqueue fails after the record was
created and the synchronous `markFailed` write succeeds, the just-created
record is marked failed with code `QUEUE_ERROR` (so no pending record
remains for that id) and the creation call throws
`Failed to enqueue transcription`. -/
theorem c6_amended (env : CreateEnv) (src : TranscriptionSource)
    (meta : List (String × String)) (qe : Str)
    (hsz : env.audioSize ≤ maxFileSize)
    (hup : env.uploadErr = none)
    (hcr : env.createErr = none)
    (hq : env.hasQueue = true)
    (hqe : env.queueSendErr = some qe)
    (hmf : env.markFailedErr = none) :
    ∃ r', (createTranscription env src meta).record = some r' ∧
      r'.status = .failed ∧ r'.status ≠ .pending ∧
      r'.errorDetails = some ⟨queueErrCode, queueErrMsg⟩ ∧
      (createTranscription env src meta).outcome = .error enqueueThrownMsg := by
  unfold createTranscription
  rw [if_neg (by omega : ¬ maxFileSize < env.audioSize)]
  simp only [hup, hcr, hq, hqe, hmf, if_true]
  exact ⟨_, rfl, by simp [markFailedRec], by simp [markFailedRec],
    by simp [markFailedRec], trivial⟩

/-- Witness for the amended C6 at a concrete creation run whose enqueue
fails. -/
theorem c6_witness :
    ∃ r', (createTranscription c6WitEnv .web []).record = some r' ∧
      r'.status = .failed ∧ r'.status ≠ .pending ∧
      r'.errorDetails = some ⟨queueErrCode, queueErrMsg⟩ ∧
      (createTranscription c6WitEnv .web []).outcome = .error enqueueThrownMsg :=
  c6_amended c6WitEnv .web [] (("queue down").toList) (by decide) rfl rfl rfl rfl rfl

/-- Claim C7: for every transcript text, the preview computed at completion
equals the first 150 characters with the three-character ellipsis appended
exactly when the text is longer than 150 characters, and equals the text
itself otherwise. -/
theorem c7_preview (t : Str) :
    makePreview t = if 150 < t.length then t.take 150 ++ ("...").toList else t := by
  have hsub : jsSubstring t 0 150 = t.take 150 := by
    simp only [jsSubstring, Nat.zero_min, Nat.zero_max, List.drop_zero, Nat.min_self]
    rcases le_total t.length 150 with h | h
    · rw [min_eq_right h, List.take_length, List.take_of_length_le h]
    · rw [min_eq_left h]
  unfold makePreview
  rw [hsub]
  by_cases h : 150 < t.length
  · rw [if_pos h, if_pos h]
  · rw [if_neg h, if_neg h, List.take_of_length_le (by omega), List.append_nil]

/-- Claim C10: `markFailed` on an existing record succeeds and updates only
`status` (to failed), `errorDetails` (to the given code and message) and
`completedAt`; `progress`, `transcriptText`, `preview`, `audioKey`,
`filename`, `source`, `userMetadata`, `createdAt` and `startedAt` are all
left unchanged. -/
theorem c10_markFailed_frame (r : Transcription) (code msg : Str) (now : Nat) :
    markFailedStore (some r) code msg now = .ok (markFailedRec r code msg now) ∧
    (markFailedRec r code msg now).status = .failed ∧
    (markFailedRec r code msg now).errorDetails = some ⟨code, msg⟩ ∧
    (markFailedRec r code msg now).completedAt = some now ∧
    (markFailedRec r code msg now).progress = r.progress ∧
    (markFailedRec r code msg now).transcriptText = r.transcriptText ∧
    (markFailedRec r code msg now).preview = r.preview ∧
    (markFailedRec r code msg now).audioKey = r.audioKey ∧
    (markFailedRec r code msg now).filename = r.filename ∧
    (markFailedRec r code msg now).source = r.source ∧
    (markFailedRec r code msg now).userMetadata = r.userMetadata ∧
    (markFailedRec r code msg now).createdAt = r.createdAt ∧
    (markFailedRec r code msg now).startedAt = r.startedAt :=
  ⟨rfl, rfl, rfl, rfl, rfl, rfl, rfl, rfl, rfl, rfl, rfl, rfl, rfl⟩


/-- Claim C8: `downloadContent` attempts the bucket-binding read at most 3
times with total backoff at most 1450 ms (the increasing delays 150, 400,
900), returns the object's bytes from the first attempt that finds it (using
exactly that many binding reads, never a fourth), and declares
`Object not found` when all three attempts miss and no fallback is
configured. -/
theorem c8_download_bounded (env : DownloadEnv) :
    (downloadContent env).getCalls ≤ 3 ∧
    (downloadContent env).sleptMs ≤ 1450 ∧
    (∀ k b, k < 3 → (∀ j, j < k → env.getResult j = none) →
      env.getResult k = some b →
      (downloadContent env).outcome = .ok b ∧ (downloadContent env).getCalls = k + 1) ∧
    ((∀ k, k < 3 → env.getResult k = none) → env.hasFallback = false →
      (downloadContent env).outcome = .error "Object not found") := by
  rcases h0 : env.getResult 0 with _ | b0
  · rcases h1 : env.getResult 1 with _ | b1
    · rcases h2 : env.getResult 2 with _ | b2
      · have hL : bucketLoop env 3 0 = (3, 1450, none) := by
          simp [bucketLoop, h0, h1, h2, delaysMs]
        refine ⟨?_, ?_, ?_, ?_⟩
        · unfold downloadContent
          rw [hL]
          cases hf : env.hasFallback <;> cases hfr : env.fallbackResult <;> simp
        · unfold downloadContent
          rw [hL]
          cases hf : env.hasFallback <;> cases hfr : env.fallbackResult <;> simp
        · intro k b hk hprev hsome
          interval_cases k
          · rw [h0] at hsome; exact absurd hsome (by simp)
          · rw [h1] at hsome; exact absurd hsome (by simp)
          · rw [h2] at hsome; exact absurd hsome (by simp)
        · intro _ hf
          unfold downloadContent
          simp [hL, hf]
      · have hL : bucketLoop env 3 0 = (3, 550, some b2) := by
          simp [bucketLoop, h0, h1, h2, delaysMs]
        refine ⟨?_, ?_, ?_, ?_⟩
        · unfold downloadContent; simp [hL]
        · unfold downloadContent; simp [hL]
        · intro k b hk hprev hsome
          interval_cases k
          · rw [h0] at hsome; exact absurd hsome (by simp)
          · rw [h1] at hsome; exact absurd hsome (by simp)
          · rw [h2] at hsome
            injection hsome with hb
            subst hb
            constructor <;> (unfold downloadContent; simp [hL])
        · intro hall _
          exact absurd (hall 2 (by omega)) (by simp [h2])
    · have hL : bucketLoop env 3 0 = (2, 150, some b1) := by
        simp [bucketLoop, h0, h1, delaysMs]
      refine ⟨?_, ?_, ?_, ?_⟩
      · unfold downloadContent; simp [hL]
      · unfold downloadContent; simp [hL]
      · intro k b hk hprev hsome
        interval_cases k
        · rw [h0] at hsome; exact absurd hsome (by simp)
        · rw [h1] at hsome
          injection hsome with hb
          subst hb
          constructor <;> (unfold downloadContent; simp [hL])
        · exact absurd (hprev 1 (by omega)) (by simp [h1])
      · intro hall _
        exact absurd (hall 1 (by omega)) (by simp [h1])
  · have hL : bucketLoop env 3 0 = (1, 0, some b0) := by
      simp [bucketLoop, h0]
    refine ⟨?_, ?_, ?_, ?_⟩
    · unfold downloadContent; simp [hL]
    · unfold downloadContent; simp [hL]
    · intro k b hk hprev hsome
      interval_cases k
      · rw [h0] at hsome
        injection hsome with hb
        subst hb
        constructor <;> (unfold downloadContent; simp [hL])
      · exact absurd (hprev 0 (by omega)) (by simp [h0])
      · exact absurd (hprev 0 (by omega)) (by simp [h0])
    · intro hall _
      exact absurd (hall 0 (by omega)) (by simp [h0])

/-- Witness for C8 at a concrete bucket where the object appears on the
second read. -/
theorem c8_witness :
    (downloadContent c8WitEnv).outcome = .ok [7, 7] ∧
    (downloadContent c8WitEnv).getCalls = 2 :=
  (c8_download_bounded c8WitEnv).2.2.1 1 [7, 7] (by omega)
    (by intro j hj; interval_cases j; rfl) rfl


theorem runBatch_spec (proc : Nat → Except Str Unit) (e : Str) :
    ∀ (i n s : Nat), i < n → (∀ j, j < i → proc (s + j) = .ok ()) →
      proc (s + i) = .error e →
      runBatch proc n s = ((List.range (i + 1)).map (s + ·), .error e) := by
  intro i
  induction i with
  | zero =>
      intro n s hin hok hf
      cases n with
      | zero => omega
      | succ m =>
          rw [Nat.add_zero] at hf
          simp [runBatch, hf, List.range_succ]
  | succ i ih =>
      intro n s hin hok hf
      cases n with
      | zero => omega
      | succ m =>
          have h0 : proc s = .ok () := by
            have h := hok 0 (by omega)
            rwa [Nat.add_zero] at h
          have hm : i < m := by omega
          have hok' : ∀ j, j < i → proc (s + 1 + j) = .ok () := by
            intro j hj
            have h := hok (j + 1) (by omega)
            rwa [show s + (j + 1) = s + 1 + j by omega] at h
          have hf' : proc (s + 1 + i) = .error e := by
            rwa [show s + (i + 1) = s + 1 + i by omega] at hf
          simp only [runBatch, h0]
          rw [ih m (s + 1) hm hok' hf']
          have hfun : ∀ x : Nat, s + 1 + x = s + Nat.succ x := by
            intro x; omega
          simp [List.range_succ_eq_map, List.map_map, Function.comp,
            List.map_congr_left (fun x _ => hfun x)]
  
/-- Claim C9: `handleQueueMessage` processes the batch strictly in index
order; if the message at position i throws after every earlier message
succeeded, the exception is re-thrown immediately, exactly the messages at
positions 0..i were processed (the earlier successes are not rolled back),
and no later message is processed in that invocation. -/
theorem c9_batch_order (proc : Nat → Except Str Unit) (n i : Nat) (e : Str)
    (hin : i < n) (hok : ∀ j, j < i → proc j = .ok ()) (hf : proc i = .error e) :
    handleQueueMessage proc n = (List.range (i + 1), .error e) := by
  unfold handleQueueMessage
  have h := runBatch_spec proc e i n 0 hin (by simpa using hok) (by simpa using hf)
  simpa using h

/-- Witness for C9 at a concrete five-message batch whose third message
fails. -/
theorem c9_witness : handleQueueMessage c9WitProc 5 = (List.range 3, .error (("boom").toList)) :=
  c9_batch_order c9WitProc 5 2 (("boom").toList) (by omega)
    (by intro j hj; interval_cases j <;> rfl) rfl

end M4A
